import Mathlib

/-!
Verification of the purchasing-power-calculator core (App.tsx plus types.ts).

JavaScript numbers are modelled as rationals (exact arithmetic); the one
transcendental operation, Math.sin, is abstracted as a parameter
`sine : Int → ℚ` so that every development below holds for the actual sine
on the actual platform. Records keyed by strings are modelled as
association lists; `null`/`undefined` become `Option`.
-/

/-- Association-list lookup, modelling a JavaScript record read `m[k]`
(returning `undefined`, here `none`, when the key is absent). -/
def lookupA {β : Type} : List (String × β) → String → Option β
  | [], _ => none
  | (k, v) :: rest, key => if key = k then some v else lookupA rest key

/-- Association-list update, modelling the JavaScript object spread
`\x7b ...m, [k]: v \x7d`: the key `k` now maps to `v`, all other keys keep
their values. -/
def updAssoc {β : Type} (l : List (String × β)) (k : String) (v : β) : List (String × β) :=
  (k, v) :: l.filter (fun p => p.1 ≠ k)

/-- Truncation to a signed 32-bit integer, the effect of the JavaScript
bitwise operations (`hash & hash`, and the implicit ToInt32 of `<<`). -/
def toInt32 (n : Int) : Int :=
  (n + 2147483648) % 4294967296 - 2147483648

/-- One step of the rolling polynomial hash in `pseudoRandom`:
`hash = ((hash << 5) - hash) + char; hash = hash & hash`. -/
def hashStep (h : Int) (c : Nat) : Int :=
  toInt32 (toInt32 (h * 32) - h + c)

/-- The rolling polynomial hash loop of `pseudoRandom`, folding
`hashStep` over the character codes of the seed string. -/
def hashString (s : String) : Int :=
  s.toList.foldl (fun h ch => hashStep h ch.toNat) 0

/-- `pseudoRandom(seed)` from App.tsx: hash the seed string, then
`x = Math.sin(hash) * 10000; return x - Math.floor(x)`. The sine is the
abstract parameter `sine`. -/
def pseudoRandom (sine : Int → ℚ) (seed : String) : ℚ :=
  Int.fract (sine (hashString seed) * 10000)

/-- `getVar(salt, range)` from `generateSimulatedCountryData`:
`(pseudoRandom(seed + salt) * range * 2) - range`. -/
def getVar (sine : Int → ℚ) (seed salt : String) (range : ℚ) : ℚ :=
  pseudoRandom sine (seed ++ salt) * range * 2 - range

/-- JavaScript `Math.round`: round half toward positive infinity. -/
def jsRound (x : ℚ) : Int :=
  ⌊x + 1/2⌋

/-- Region tag of a baseline profile. -/
inductive Region : Type
  | EU : Region
  | NA : Region
  | ASIA : Region
  | OTHER : Region
deriving DecidableEq

/-- A baseline economic profile from `COUNTRY_PROFILES`. -/
structure CountryProfile where
  salary : ℚ
  index : ℚ
  region : Region
deriving DecidableEq

/-- The static `COUNTRY_PROFILES` table from App.tsx. -/
def COUNTRY_PROFILES : List (String × CountryProfile) :=
  [("CH", ⟨85000, 158, Region.OTHER⟩), ("IS", ⟨75000, 150, Region.OTHER⟩),
   ("LU", ⟨78000, 135, Region.EU⟩), ("NO", ⟨65000, 138, Region.OTHER⟩),
   ("US", ⟨72000, 140, Region.NA⟩), ("DK", ⟨62000, 130, Region.EU⟩),
   ("IE", ⟨55000, 125, Region.EU⟩), ("AU", ⟨58000, 125, Region.OTHER⟩),
   ("SG", ⟨60000, 130, Region.ASIA⟩), ("SE", ⟨48000, 110, Region.EU⟩),
   ("FI", ⟨47000, 112, Region.EU⟩), ("NL", ⟨52000, 115, Region.EU⟩),
   ("GB", ⟨48000, 115, Region.OTHER⟩), ("AT", ⟨51000, 108, Region.EU⟩),
   ("DE", ⟨53000, 106, Region.EU⟩), ("BE", ⟨50000, 109, Region.EU⟩),
   ("FR", ⟨42000, 105, Region.EU⟩), ("CA", ⟨48000, 105, Region.NA⟩),
   ("NZ", ⟨45000, 105, Region.OTHER⟩), ("IT", ⟨32000, 98, Region.EU⟩),
   ("ES", ⟨28000, 90, Region.EU⟩), ("JP", ⟨38000, 95, Region.ASIA⟩),
   ("KR", ⟨36000, 90, Region.ASIA⟩), ("CY", ⟨25000, 88, Region.EU⟩),
   ("SI", ⟨28000, 87, Region.EU⟩), ("MT", ⟨26000, 86, Region.EU⟩),
   ("PT", ⟨22000, 82, Region.EU⟩), ("EE", ⟨24000, 80, Region.EU⟩),
   ("CZ", ⟨23000, 78, Region.EU⟩), ("GR", ⟨19000, 78, Region.EU⟩),
   ("SK", ⟨20000, 75, Region.EU⟩), ("LV", ⟨20000, 75, Region.EU⟩),
   ("LT", ⟨21000, 72, Region.EU⟩), ("PL", ⟨18000, 65, Region.EU⟩),
   ("HR", ⟨18000, 68, Region.EU⟩), ("HU", ⟨16000, 62, Region.EU⟩),
   ("RO", ⟨14000, 55, Region.EU⟩), ("BG", ⟨12000, 52, Region.EU⟩),
   ("TR", ⟨9000, 45, Region.OTHER⟩), ("MK", ⟨8500, 48, Region.OTHER⟩),
   ("RS", ⟨10000, 52, Region.OTHER⟩), ("ME", ⟨10000, 55, Region.OTHER⟩),
   ("BA", ⟨9500, 50, Region.OTHER⟩), ("AL", ⟨8000, 48, Region.OTHER⟩),
   ("TH", ⟨12000, 45, Region.ASIA⟩), ("CN", ⟨18000, 55, Region.ASIA⟩),
   ("BR", ⟨11000, 50, Region.OTHER⟩), ("MX", ⟨12000, 48, Region.NA⟩),
   ("AE", ⟨55000, 90, Region.ASIA⟩)]

/-- The fallback profile `\x7b salary: 20000, index: 70, region: OTHER \x7d`
used for a country code with no entry in `COUNTRY_PROFILES`. -/
def defaultProfile : CountryProfile :=
  ⟨20000, 70, Region.OTHER⟩

/-- `COUNTRY_PROFILES[country.code] || default` from
`generateSimulatedCountryData`. -/
def getProfile (code : String) : CountryProfile :=
  (lookupA COUNTRY_PROFILES code).getD defaultProfile

/-- The fixed list of non-EU-region codes treated as EU-like when choosing
data-source labels. -/
def EU_LIKE_CODES : List String :=
  ["CH", "NO", "IS", "MK", "TR", "RS", "ME", "BA", "AL"]

/-- One quality-of-life indicator: a value plus a provenance label
(`QualityOfLifeData` from types.ts). -/
structure QualityOfLifeData where
  value : ℚ
  source : String
deriving DecidableEq

/-- The six quality-of-life indicators (`QualityOfLife` from types.ts). -/
structure QualityOfLife where
  unemploymentRate : QualityOfLifeData
  lifeExpectancy : QualityOfLifeData
  safetyIndex : QualityOfLifeData
  healthCareIndex : QualityOfLifeData
  pollutionIndex : QualityOfLifeData
  propertyPriceToIncomeRatio : QualityOfLifeData
deriving DecidableEq

/-- The `metadata` record of a generated country entry. -/
structure Metadata where
  economicDataSource : String
  dataSourceUrl : Option String
  lastUpdate : String
deriving DecidableEq

/-- A selectable country (`SelectableCountry` from types.ts). -/
structure SelectableCountry where
  code : String
  name : String
  currency : String
deriving DecidableEq

/-- The value produced by `generateSimulatedCountryData`: a `CountryData`
minus the identity fields code, name and currency. -/
structure GeneratedData where
  averageSalaryEUR : ℚ
  priceIndex : ℚ
  categoryPrices : List (String × ℚ)
  qualityOfLife : QualityOfLife
  metadata : Metadata
deriving DecidableEq

/-- Full `CountryData` from types.ts. -/
structure CountryData where
  code : String
  name : String
  currency : String
  averageSalaryEUR : ℚ
  priceIndex : ℚ
  categoryPrices : List (String × ℚ)
  qualityOfLife : QualityOfLife
  metadata : Metadata
deriving DecidableEq

/-- `generateSimulatedCountryData(country)` from App.tsx. `sine` abstracts
Math.sin and `cats` is the category-id list of the `CATEGORIES` constant
(declared in constants.ts, outside the sources at hand, so it is kept as a
parameter). The 300 ms simulated delay has no effect on the value. -/
def generateSimulatedCountryData (sine : Int → ℚ) (cats : List String)
    (country : SelectableCountry) : GeneratedData :=
  let profile := getProfile country.code
  let seed := country.code
  let categoryPrices : List (String × ℚ) :=
    (cats.filter (fun id => id ≠ "total")).map
      (fun id => (id, max 30 ((jsRound (profile.index + getVar sine seed id 12) : ℤ) : ℚ)))
  let isEU : Bool := decide (profile.region = Region.EU ∨ seed ∈ EU_LIKE_CODES)
  let qualityOfLife : QualityOfLife :=
    { unemploymentRate :=
        ⟨max 2 (5 + getVar sine seed "unemp" 4 + (if profile.index < 70 then 5 else 0)),
         if isEU then "Eurostat" else "World Bank"⟩
      lifeExpectancy :=
        ⟨min 85 (max 70 (78 + getVar sine seed "life" 4 +
            (if profile.index > 100 then 3 else -2))),
         if isEU then "Eurostat" else "WHO"⟩
      safetyIndex :=
        ⟨min 90 (max 40 (65 + getVar sine seed "safe" 15 +
            (if profile.index > 120 then 10 else 0))), "Numbeo"⟩
      healthCareIndex :=
        ⟨min 90 (max 40 (68 + getVar sine seed "health" 10 +
            (if profile.index > 100 then 8 else -5))), "Numbeo"⟩
      pollutionIndex :=
        ⟨min 90 (max 20 (40 + getVar sine seed "poll" 15 -
            (if profile.index > 100 then 10 else -10))), "Numbeo"⟩
      propertyPriceToIncomeRatio :=
        ⟨max 5 (10 + getVar sine seed "prop" 4), "Numbeo"⟩ }
  { averageSalaryEUR := profile.salary
    priceIndex := profile.index
    categoryPrices := categoryPrices
    qualityOfLife := qualityOfLife
    metadata :=
      { economicDataSource :=
          if isEU then "Eurostat" else if country.code = "US" then "OECD" else "World Bank"
        dataSourceUrl :=
          if isEU then some "https://ec.europa.eu/eurostat/data/database" else none
        lastUpdate := "2024" } }

/-- `fullData = \x7b ...data, ...country \x7d` in `fetchCountryData`:
the generated fields together with the identity fields of the country. -/
def mkFullData (g : GeneratedData) (c : SelectableCountry) : CountryData :=
  { code := c.code
    name := c.name
    currency := c.currency
    averageSalaryEUR := g.averageSalaryEUR
    priceIndex := g.priceIndex
    categoryPrices := g.categoryPrices
    qualityOfLife := g.qualityOfLife
    metadata := g.metadata }

/-- `e.target.value.replace(/[^0-9]/g, will-be-empty)` in
`handleSalaryChange`: the salary state string only ever holds decimal
digits. -/
def sanitizeSalary (s : String) : String :=
  String.mk (s.toList.filter Char.isDigit)

/-- `parseFloat(salary) || 0` for the digit-only strings the salary state
can hold: the empty string parses to NaN and is coerced to 0, a nonempty
digit string parses to its decimal value (and 0 is mapped to 0 again by
the `|| 0`). -/
def parseSalaryNum (s : String) : ℚ :=
  ((s.toList.foldl (fun n c => 10 * n + (c.toNat - 48)) 0 : ℕ) : ℚ)

/-- The rate used for a currency in the equivalent-salary computation:
`currency === EUR ? 1 : rates[currency]`. -/
def lookupRate (rates : List (String × ℚ)) (currency : String) : Option ℚ :=
  if currency = "EUR" then some 1 else lookupA rates currency

/-- Result of the `equivalentSalary` useMemo: the pair
`\x7b equivalentSalary, equivalentSalaryInEUR \x7d` (target-currency and
reference-currency figures). -/
structure EquivResult where
  equivalentSalary : ℚ
  equivalentSalaryInEUR : ℚ
deriving DecidableEq

/-- The zero sentinel `\x7b equivalentSalary: 0, equivalentSalaryInEUR: 0 \x7d`. -/
def zeroEquiv : EquivResult :=
  ⟨0, 0⟩

/-- The `equivalentSalary` useMemo body from App.tsx. JavaScript
truthiness tests on numbers (`!fromCountryData.priceIndex`, `!fromRate`)
become equality with 0; `undefined` data or rates become `none`. -/
def computeEquivalentSalary (fromCountryData toCountryData : Option CountryData)
    (rates : Option (List (String × ℚ))) (fromCurrency toCurrency : String)
    (salary : String) : EquivResult :=
  match fromCountryData, toCountryData, rates with
  | some fd, some td, some rs =>
    if fd.priceIndex = 0 ∨ td.priceIndex = 0 then zeroEquiv
    else
      let numericSalary := parseSalaryNum salary
      match lookupRate rs fromCurrency, lookupRate rs toCurrency with
      | some fromRate, some toRate =>
        if fromRate = 0 ∨ toRate = 0 then zeroEquiv
        else
          let salaryInEUR := numericSalary / fromRate
          let pppAdjustedSalaryInEUR := salaryInEUR * (td.priceIndex / fd.priceIndex)
          ⟨pppAdjustedSalaryInEUR * toRate, pppAdjustedSalaryInEUR⟩
      | _, _ => zeroEquiv
  | _, _, _ => zeroEquiv

/-- One entry of the cost-of-living comparison (`PriceLevelData` from
types.ts). -/
structure PriceLevelEntry where
  categoryId : String
  percentageDiff : ℚ
deriving DecidableEq

/-- The per-category body of the `priceLevelData` useMemo: the `total`
category reads the overall price index, other categories read
`categoryPrices[id]`; a missing index or a zero source index yields a
neutral entry. -/
def priceLevelEntry (fromData toData : CountryData) (catId : String) : PriceLevelEntry :=
  let fromIndex : Option ℚ :=
    if catId = "total" then some fromData.priceIndex else lookupA fromData.categoryPrices catId
  let toIndex : Option ℚ :=
    if catId = "total" then some toData.priceIndex else lookupA toData.categoryPrices catId
  match fromIndex, toIndex with
  | some fi, some ti =>
    if fi = 0 then ⟨catId, 0⟩ else ⟨catId, (ti / fi - 1) * 100⟩
  | _, _ => ⟨catId, 0⟩

/-- The `priceLevelData` useMemo: empty until both country entries are
loaded, then one entry per comparison category. -/
def priceLevelData (cats : List String) (fromData toData : Option CountryData) :
    List PriceLevelEntry :=
  match fromData, toData with
  | some fd, some td => cats.map (priceLevelEntry fd td)
  | _, _ => []

/-- A persisted exchange-rate snapshot: `\x7b date, rates \x7d` under the
`exchange_rates_cache` key. -/
structure RatesSnapshot where
  date : String
  rates : List (String × ℚ)
deriving DecidableEq

/-- The observable outcome of one run of the `fetchRates` effect: the
persisted snapshot afterwards, the React state it leaves behind, and
whether the network was contacted. -/
structure RatesResult where
  storage : Option RatesSnapshot
  rates : Option (List (String × ℚ))
  ratesLastUpdated : Option String
  isLoadingRates : Bool
  ratesError : Bool
  networkCalled : Bool
deriving DecidableEq

/-- `\x7b ...data.rates, EUR: 1 \x7d`: inject a 1.0 rate for the reference
currency, keeping every other rate. -/
def injectEUR (m : List (String × ℚ)) : List (String × ℚ) :=
  updAssoc m "EUR" 1

/-- One run of the `fetchRates` effect from App.tsx. `today` is the
current ISO date, `stored` the persisted snapshot (with `none` covering
both an absent entry and a malformed one whose parse failed), and `net`
the network outcome when a fetch is attempted (`none` = failure). The
effect runs from the initial state: rates null, no error, loading. -/
def fetchRates (today : String) (stored : Option RatesSnapshot)
    (net : Option (List (String × ℚ))) : RatesResult :=
  let fetchFresh : RatesResult :=
    match net with
    | some data =>
      let newRates := injectEUR data
      { storage := some ⟨today, newRates⟩
        rates := some newRates
        ratesLastUpdated := some today
        isLoadingRates := false
        ratesError := false
        networkCalled := true }
    | none =>
      { storage := stored
        rates := none
        ratesLastUpdated := none
        isLoadingRates := false
        ratesError := true
        networkCalled := true }
  match stored with
  | some cached =>
    if cached.date = today then
      { storage := some cached
        rates := some cached.rates
        ratesLastUpdated := some cached.date
        isLoadingRates := false
        ratesError := false
        networkCalled := false }
    else fetchFresh
  | none => fetchFresh

/-- A persisted per-country cache entry: `\x7b monthKey, data \x7d` under a
`ppc_data_` prefixed key. -/
structure StoredCountryEntry where
  monthKey : String
  data : CountryData
deriving DecidableEq

/-- The mutable state touched by `fetchCountryData`: the in-memory cache,
the in-flight set, the loading and error maps, and the persisted
per-country entries (keyed here by country code, standing for the
`ppc_data_` prefixed keys). -/
structure FetchState where
  cache : List (String × CountryData)
  fetching : List String
  loading : List (String × Bool)
  err : List (String × Option String)
  storage : List (String × StoredCountryEntry)
deriving DecidableEq

/-- The synchronous prefix of `fetchCountryData(code)` up to the await of
the generator: the reentrancy guard, the unknown-code guard, and the
claim of the in-flight marker. The Bool reports whether a generation was
actually started. -/
def fetchBegin (countries : List SelectableCountry) (code : String)
    (s : FetchState) : FetchState × Bool :=
  if (lookupA s.cache code).isSome ∨ code ∈ s.fetching then (s, false)
  else
    match countries.find? (fun c => c.code = code) with
    | none => (s, false)
    | some _ =>
      ({ s with
          fetching := code :: s.fetching
          loading := updAssoc s.loading code true
          err := updAssoc s.err code none }, true)

/-- The continuation of `fetchCountryData(code)` after the generator
resolves: persist `\x7b monthKey, fullData \x7d`, publish the data in the
in-memory cache, then the finally block releases the in-flight marker and
clears the loading flag. -/
def fetchComplete (countries : List SelectableCountry) (sine : Int → ℚ)
    (cats : List String) (monthKey : String) (code : String)
    (s : FetchState) : FetchState :=
  match countries.find? (fun c => c.code = code) with
  | none => s
  | some country =>
    let fullData := mkFullData (generateSimulatedCountryData sine cats country) country
    { s with
        storage := updAssoc s.storage code ⟨monthKey, fullData⟩
        cache := updAssoc s.cache code fullData
        fetching := s.fetching.erase code
        loading := updAssoc s.loading code false }

/-- A complete, non-interleaved execution of `fetchCountryData(code)`:
the synchronous prefix followed, when a generation was started, by the
completion. `monthKey` is the `year-month` string read from the clock. -/
def fetchCountryDataRun (countries : List SelectableCountry) (sine : Int → ℚ)
    (cats : List String) (monthKey : String) (code : String)
    (s : FetchState) : FetchState :=
  let (s₁, started) := fetchBegin countries code s
  if started then fetchComplete countries sine cats monthKey code s₁ else s₁

/-- The cache initialiser from App.tsx: read every persisted `ppc_data_`
entry and keep only those whose stored `monthKey` matches the current
month. -/
def readCachedCountryData (currentMonthKey : String)
    (storage : List (String × StoredCountryEntry)) : List (String × CountryData) :=
  (storage.filter (fun p => p.2.monthKey = currentMonthKey)).map
    (fun p => (p.1, p.2.data))

/-- A convenient concrete quality-of-life record for concrete instances. -/
def sampleQoLData : QualityOfLifeData :=
  ⟨50, "Numbeo"⟩

/-- A convenient concrete quality-of-life block for concrete instances. -/
def sampleQoL : QualityOfLife :=
  ⟨sampleQoLData, sampleQoLData, sampleQoLData, sampleQoLData, sampleQoLData, sampleQoLData⟩

/-- A convenient concrete country entry for concrete instances. -/
def sampleCountry (code currency : String) (priceIndex : ℚ) : CountryData :=
  ⟨code, code, currency, 30000, priceIndex, [("food", 95)], sampleQoL,
   ⟨"Eurostat", none, "2024"⟩⟩

theorem pseudoRandom_nonneg (sine : Int → ℚ) (seed : String) :
    0 ≤ pseudoRandom sine seed :=
  Int.fract_nonneg _

theorem pseudoRandom_lt_one (sine : Int → ℚ) (seed : String) :
    pseudoRandom sine seed < 1 :=
  Int.fract_lt_one _

theorem getVar_lb (sine : Int → ℚ) (seed salt : String) (range : ℚ)
    (h : 0 ≤ range) : -range ≤ getVar sine seed salt range := by
  have h0 := pseudoRandom_nonneg sine (seed ++ salt)
  unfold getVar
  nlinarith

theorem getVar_ub (sine : Int → ℚ) (seed salt : String) (range : ℚ)
    (h : 0 < range) : getVar sine seed salt range < range := by
  have h1 := pseudoRandom_lt_one sine (seed ++ salt)
  have h0 := pseudoRandom_nonneg sine (seed ++ salt)
  unfold getVar
  nlinarith

theorem lookupA_updAssoc_self {β : Type} (l : List (String × β)) (k : String) (v : β) :
    lookupA (updAssoc l k v) k = some v := by
  simp [updAssoc, lookupA]

theorem lookupA_filter_ne {β : Type} (l : List (String × β)) (k key : String)
    (h : key ≠ k) : lookupA (l.filter (fun p => p.1 ≠ k)) key = lookupA l key := by
  induction l with
  | nil => rfl
  | cons p rest ih =>
    rw [List.filter_cons]
    simp only [ne_eq, decide_not] at ih ⊢
    by_cases hp : p.1 = k
    · simp [hp, lookupA, h, ih]
    · simp [hp, lookupA, ih]

theorem lookupA_updAssoc_ne {β : Type} (l : List (String × β)) (k key : String) (v : β)
    (h : key ≠ k) : lookupA (updAssoc l k v) key = lookupA l key := by
  simp only [updAssoc, lookupA, h, if_false]
  exact lookupA_filter_ne l k key h

theorem parseSalaryNum_nonneg (s : String) : 0 ≤ parseSalaryNum s := by
  unfold parseSalaryNum
  exact_mod_cast Nat.zero_le _

/-- C7: for every country code (known or unknown, hence any
`SelectableCountry`), any category list and any sine function, every
quality-of-life indicator produced by `generateSimulatedCountryData` is
bounded below and above: the safety index lies in [40, 90], life
expectancy in [70, 85], the health-care index in [40, 90], the pollution
index in [20, 90]; the unemployment rate is clamped below at 2 and its
construction bounds it above by 14, and the property-price-to-income
ratio is clamped below at 5 and bounded above by 14. -/
theorem qualityOfLife_range_invariants (sine : Int → ℚ) (cats : List String)
    (country : SelectableCountry) :
    (2 ≤ (generateSimulatedCountryData sine cats country).qualityOfLife.unemploymentRate.value ∧
      (generateSimulatedCountryData sine cats country).qualityOfLife.unemploymentRate.value < 14) ∧
    (70 ≤ (generateSimulatedCountryData sine cats country).qualityOfLife.lifeExpectancy.value ∧
      (generateSimulatedCountryData sine cats country).qualityOfLife.lifeExpectancy.value ≤ 85) ∧
    (40 ≤ (generateSimulatedCountryData sine cats country).qualityOfLife.safetyIndex.value ∧
      (generateSimulatedCountryData sine cats country).qualityOfLife.safetyIndex.value ≤ 90) ∧
    (40 ≤ (generateSimulatedCountryData sine cats country).qualityOfLife.healthCareIndex.value ∧
      (generateSimulatedCountryData sine cats country).qualityOfLife.healthCareIndex.value ≤ 90) ∧
    (20 ≤ (generateSimulatedCountryData sine cats country).qualityOfLife.pollutionIndex.value ∧
      (generateSimulatedCountryData sine cats country).qualityOfLife.pollutionIndex.value ≤ 90) ∧
    (5 ≤ (generateSimulatedCountryData sine cats country).qualityOfLife.propertyPriceToIncomeRatio.value ∧
      (generateSimulatedCountryData sine cats country).qualityOfLife.propertyPriceToIncomeRatio.value < 14) := by
  have hu := getVar_ub sine country.code "unemp" 4 (by norm_num)
  have hpr := getVar_ub sine country.code "prop" 4 (by norm_num)
  simp only [generateSimulatedCountryData]
  refine ⟨⟨le_max_left _ _, ?_⟩, ⟨le_min (by norm_num) (le_max_left _ _), min_le_left _ _⟩,
    ⟨le_min (by norm_num) (le_max_left _ _), min_le_left _ _⟩,
    ⟨le_min (by norm_num) (le_max_left _ _), min_le_left _ _⟩,
    ⟨le_min (by norm_num) (le_max_left _ _), min_le_left _ _⟩,
    ⟨le_max_left _ _, ?_⟩⟩
  · apply max_lt (by norm_num)
    split_ifs <;> linarith
  · apply max_lt (by norm_num)
    linarith

/-- C8: the country-data generator is deterministic and a pure function
of the country code (the seed of the pseudo-random function): two calls
with the same code, the same category list and the same platform sine
yield identical output, regardless of the other country fields. The
calendar month is not even an input of the generator. -/
theorem generateSimulatedCountryData_deterministic (sine : Int → ℚ)
    (cats : List String) (c₁ c₂ : SelectableCountry) (h : c₁.code = c₂.code) :
    generateSimulatedCountryData sine cats c₁ = generateSimulatedCountryData sine cats c₂ := by
  unfold generateSimulatedCountryData
  rw [h]

/-- Witness for C8 at a concrete input: the same code IT with two
different display names generates identical data. -/
theorem generateSimulatedCountryData_deterministic_witness :
    generateSimulatedCountryData (fun _ => 0) ["total", "food"] ⟨"IT", "Italy", "EUR"⟩ =
      generateSimulatedCountryData (fun _ => 0) ["total", "food"] ⟨"IT", "Italia", "EUR"⟩ :=
  generateSimulatedCountryData_deterministic (fun _ => 0) ["total", "food"]
    ⟨"IT", "Italy", "EUR"⟩ ⟨"IT", "Italia", "EUR"⟩ rfl

theorem computeEquivalentSalary_formula_aux (fd td : CountryData)
    (rs : List (String × ℚ)) (fromCurrency toCurrency salary : String)
    (fromRate toRate : ℚ)
    (hfi : fd.priceIndex ≠ 0) (hti : td.priceIndex ≠ 0)
    (hfr : lookupRate rs fromCurrency = some fromRate) (hfr0 : fromRate ≠ 0)
    (htr : lookupRate rs toCurrency = some toRate) (htr0 : toRate ≠ 0) :
    computeEquivalentSalary (some fd) (some td) (some rs) fromCurrency toCurrency salary =
      ⟨parseSalaryNum salary / fromRate * (td.priceIndex / fd.priceIndex) * toRate,
       parseSalaryNum salary / fromRate * (td.priceIndex / fd.priceIndex)⟩ := by
  have hz : ¬ (fd.priceIndex = 0 ∨ td.priceIndex = 0) := by
    rintro (h | h)
    · exact hfi h
    · exact hti h
  have hr0 : ¬ (fromRate = 0 ∨ toRate = 0) := by
    rintro (h | h)
    · exact hfr0 h
    · exact htr0 h
  simp only [computeEquivalentSalary]
  rw [if_neg hz]
  simp only [hfr, htr]
  rw [if_neg hr0]

theorem computeEquivalentSalary_cases (fromData toData : Option CountryData)
    (rates : Option (List (String × ℚ))) (fromCurrency toCurrency salary : String) :
    computeEquivalentSalary fromData toData rates fromCurrency toCurrency salary = zeroEquiv ∨
    ∃ fd td rs fromRate toRate,
      fromData = some fd ∧ toData = some td ∧ rates = some rs ∧
      lookupRate rs fromCurrency = some fromRate ∧ fromRate ≠ 0 ∧
      lookupRate rs toCurrency = some toRate ∧ toRate ≠ 0 ∧
      fd.priceIndex ≠ 0 ∧ td.priceIndex ≠ 0 ∧
      computeEquivalentSalary fromData toData rates fromCurrency toCurrency salary =
        ⟨parseSalaryNum salary / fromRate * (td.priceIndex / fd.priceIndex) * toRate,
         parseSalaryNum salary / fromRate * (td.priceIndex / fd.priceIndex)⟩ := by
  obtain _ | fd := fromData
  · left; rfl
  obtain _ | td := toData
  · left; rfl
  obtain _ | rs := rates
  · left; rfl
  by_cases hz : fd.priceIndex = 0 ∨ td.priceIndex = 0
  · left
    simp only [computeEquivalentSalary]
    rw [if_pos hz]
  rcases hfr : lookupRate rs fromCurrency with _ | fromRate <;>
    rcases htr : lookupRate rs toCurrency with _ | toRate
  · left
    simp only [computeEquivalentSalary]
    rw [if_neg hz]
    simp [hfr, htr]
  · left
    simp only [computeEquivalentSalary]
    rw [if_neg hz]
    simp [hfr, htr]
  · left
    simp only [computeEquivalentSalary]
    rw [if_neg hz]
    simp [hfr, htr]
  · by_cases hr0 : fromRate = 0 ∨ toRate = 0
    · left
      simp only [computeEquivalentSalary]
      rw [if_neg hz]
      simp only [hfr, htr]
      rw [if_pos hr0]
    · right
      push_neg at hz hr0
      exact ⟨fd, td, rs, fromRate, toRate, rfl, rfl, rfl, hfr, hr0.1, htr, hr0.2,
        hz.1, hz.2,
        computeEquivalentSalary_formula_aux fd td rs fromCurrency toCurrency salary
          fromRate toRate hz.1 hz.2 hfr hr0.1 htr hr0.2⟩

/-- C1: for every positive numeric salary, loaded country data with
nonzero price indices, and available (guard-passing) from- and to-rates,
the equivalent-salary computation returns the reference-currency figure
`(S / fromRate) * (toIndex / fromIndex)` and the target figure obtained
by multiplying it with `toRate`; when a currency is the reference
currency EUR its rate is taken as 1. The 50000 / 90 / 105 instance of
the claim is checked in the witness below. -/
theorem equivalentSalary_formula (fd td : CountryData) (rs : List (String × ℚ))
    (fromCurrency toCurrency salary : String) (fromRate toRate : ℚ)
    (hS : 0 < parseSalaryNum salary)
    (hfi : fd.priceIndex ≠ 0) (hti : td.priceIndex ≠ 0)
    (hfr : lookupRate rs fromCurrency = some fromRate) (hfr0 : fromRate ≠ 0)
    (htr : lookupRate rs toCurrency = some toRate) (htr0 : toRate ≠ 0) :
    computeEquivalentSalary (some fd) (some td) (some rs) fromCurrency toCurrency salary =
      ⟨parseSalaryNum salary / fromRate * (td.priceIndex / fd.priceIndex) * toRate,
       parseSalaryNum salary / fromRate * (td.priceIndex / fd.priceIndex)⟩ ∧
    (fromCurrency = "EUR" → fromRate = 1) ∧
    (toCurrency = "EUR" → toRate = 1) := by
  refine ⟨computeEquivalentSalary_formula_aux fd td rs fromCurrency toCurrency salary
    fromRate toRate hfi hti hfr hfr0 htr htr0, ?_, ?_⟩
  · intro h
    rw [h] at hfr
    simp [lookupRate] at hfr
    exact hfr.symm
  · intro h
    rw [h] at htr
    simp [lookupRate] at htr
    exact htr.symm

/-- Witness for C1 at the spec example: salary 50000, from-index 90,
to-index 105, from-rate 2, to-rate 11/10. -/
theorem equivalentSalary_formula_witness :
    computeEquivalentSalary (some (sampleCountry "AA" "AAA" 90))
        (some (sampleCountry "BB" "BBB" 105))
        (some [("AAA", 2), ("BBB", 11/10)]) "AAA" "BBB" "50000" =
      ⟨(50000 : ℚ) / 2 * (105 / 90) * (11/10), (50000 : ℚ) / 2 * (105 / 90)⟩ ∧
    ("AAA" = "EUR" → (2 : ℚ) = 1) ∧
    ("BBB" = "EUR" → (11/10 : ℚ) = 1) :=
  equivalentSalary_formula (sampleCountry "AA" "AAA" 90) (sampleCountry "BB" "BBB" 105)
    [("AAA", 2), ("BBB", 11/10)] "AAA" "BBB" "50000" 2 (11/10)
    (by decide) (by decide) (by decide) (by simp [lookupRate, lookupA]) (by norm_num)
    (by simp [lookupRate, lookupA]) (by norm_num)

/-- C2: the equivalent-salary computation returns the zero sentinel when
either country entry is missing, the rates are missing, either price
index is zero, either rate fails the availability guard (absent from the
map or zero), or the numeric salary is non-positive; and it never
produces a division-by-zero artifact: every run is either the zero
sentinel or the PPP formula whose divisors are all nonzero (in this exact
rational model NaN and Infinity do not exist, and the disjunction shows
the guarded code never divides by zero). -/
theorem equivalentSalary_zero_sentinel (fromData toData : Option CountryData)
    (rates : Option (List (String × ℚ))) (fromCurrency toCurrency salary : String) :
    (fromData = none ∨ toData = none ∨ rates = none →
      computeEquivalentSalary fromData toData rates fromCurrency toCurrency salary = zeroEquiv) ∧
    (∀ fd td, fromData = some fd → toData = some td →
      fd.priceIndex = 0 ∨ td.priceIndex = 0 →
      computeEquivalentSalary fromData toData rates fromCurrency toCurrency salary = zeroEquiv) ∧
    (∀ rs, rates = some rs →
      lookupRate rs fromCurrency = none ∨ lookupRate rs fromCurrency = some 0 ∨
        lookupRate rs toCurrency = none ∨ lookupRate rs toCurrency = some 0 →
      computeEquivalentSalary fromData toData rates fromCurrency toCurrency salary = zeroEquiv) ∧
    (parseSalaryNum salary ≤ 0 →
      computeEquivalentSalary fromData toData rates fromCurrency toCurrency salary = zeroEquiv) ∧
    (computeEquivalentSalary fromData toData rates fromCurrency toCurrency salary = zeroEquiv ∨
      ∃ fd td rs fromRate toRate,
        fromData = some fd ∧ toData = some td ∧ rates = some rs ∧
        lookupRate rs fromCurrency = some fromRate ∧ fromRate ≠ 0 ∧
        lookupRate rs toCurrency = some toRate ∧ toRate ≠ 0 ∧
        fd.priceIndex ≠ 0 ∧ td.priceIndex ≠ 0 ∧
        computeEquivalentSalary fromData toData rates fromCurrency toCurrency salary =
          ⟨parseSalaryNum salary / fromRate * (td.priceIndex / fd.priceIndex) * toRate,
           parseSalaryNum salary / fromRate * (td.priceIndex / fd.priceIndex)⟩) := by
  have hcases := computeEquivalentSalary_cases fromData toData rates fromCurrency toCurrency salary
  refine ⟨?_, ?_, ?_, ?_, hcases⟩
  · rintro (rfl | rfl | rfl)
    · rcases hcases with h | ⟨fd, td, rs, fr, tr, hfd, _⟩
      · exact h
      · exact absurd hfd (by simp)
    · rcases hcases with h | ⟨fd, td, rs, fr, tr, _, htd, _⟩
      · exact h
      · exact absurd htd (by simp)
    · rcases hcases with h | ⟨fd, td, rs, fr, tr, _, _, hrs, _⟩
      · exact h
      · exact absurd hrs (by simp)
  · rintro fd td rfl rfl hzero
    rcases hcases with h | ⟨fd', td', rs, fr, tr, hfd, htd, _, _, _, _, _, hfi, hti, _⟩
    · exact h
    · obtain rfl : fd' = fd := by injection hfd.symm
      obtain rfl : td' = td := by injection htd.symm
      rcases hzero with h0 | h0
      · exact absurd h0 hfi
      · exact absurd h0 hti
  · rintro rs rfl hbad
    rcases hcases with h | ⟨fd, td, rs', fr, tr, _, _, hrs, hfr, hfr0, htr, htr0, _⟩
    · exact h
    · obtain rfl : rs' = rs := by injection hrs.symm
      rcases hbad with hb | hb | hb | hb
      · rw [hfr] at hb
        exact absurd hb (by simp)
      · rw [hfr] at hb
        injection hb with hb
        exact absurd hb hfr0
      · rw [htr] at hb
        exact absurd hb (by simp)
      · rw [htr] at hb
        injection hb with hb
        exact absurd hb htr0
  · intro hle
    have h0 : parseSalaryNum salary = 0 := le_antisymm hle (parseSalaryNum_nonneg salary)
    rcases hcases with h | ⟨fd, td, rs, fr, tr, _, _, _, _, _, _, _, _, _, heq⟩
    · exact h
    · rw [heq, h0]
      simp [zeroEquiv]

/-- Witness for C2 at concrete inputs: missing from-data, a zero from
price index, a rate absent from the map, and a zero salary each yield the
zero sentinel. -/
theorem equivalentSalary_zero_sentinel_witness :
    computeEquivalentSalary none (some (sampleCountry "BB" "BBB" 105))
        (some [("BBB", 11/10)]) "AAA" "BBB" "50000" = zeroEquiv ∧
    computeEquivalentSalary (some (sampleCountry "AA" "AAA" 0))
        (some (sampleCountry "BB" "BBB" 105))
        (some [("AAA", 2), ("BBB", 11/10)]) "AAA" "BBB" "50000" = zeroEquiv ∧
    computeEquivalentSalary (some (sampleCountry "AA" "AAA" 90))
        (some (sampleCountry "BB" "BBB" 105))
        (some [("BBB", 11/10)]) "AAA" "BBB" "50000" = zeroEquiv ∧
    computeEquivalentSalary (some (sampleCountry "AA" "AAA" 90))
        (some (sampleCountry "BB" "BBB" 105))
        (some [("AAA", 2), ("BBB", 11/10)]) "AAA" "BBB" "0" = zeroEquiv :=
  ⟨(equivalentSalary_zero_sentinel none (some (sampleCountry "BB" "BBB" 105))
      (some [("BBB", 11/10)]) "AAA" "BBB" "50000").1 (Or.inl rfl),
   (equivalentSalary_zero_sentinel (some (sampleCountry "AA" "AAA" 0))
      (some (sampleCountry "BB" "BBB" 105))
      (some [("AAA", 2), ("BBB", 11/10)]) "AAA" "BBB" "50000").2.1
      (sampleCountry "AA" "AAA" 0) (sampleCountry "BB" "BBB" 105) rfl rfl
      (Or.inl (by decide)),
   (equivalentSalary_zero_sentinel (some (sampleCountry "AA" "AAA" 90))
      (some (sampleCountry "BB" "BBB" 105))
      (some [("BBB", 11/10)]) "AAA" "BBB" "50000").2.2.1
      [("BBB", 11/10)] rfl (Or.inl (by decide)),
   (equivalentSalary_zero_sentinel (some (sampleCountry "AA" "AAA" 90))
      (some (sampleCountry "BB" "BBB" 105))
      (some [("AAA", 2), ("BBB", 11/10)]) "AAA" "BBB" "0").2.2.2.1 (by decide)⟩

/-- C3: the identity round trip: computing the equivalent salary from a
currency with an available nonzero rate and a nonzero price index to the
same currency and the same price index returns the numeric salary
unchanged. -/
theorem equivalentSalary_roundtrip (fd td : CountryData) (rs : List (String × ℚ))
    (currency salary : String) (r : ℚ)
    (hidx : td.priceIndex = fd.priceIndex) (hfi : fd.priceIndex ≠ 0)
    (hr : lookupRate rs currency = some r) (hr0 : r ≠ 0) :
    (computeEquivalentSalary (some fd) (some td) (some rs) currency currency
        salary).equivalentSalary = parseSalaryNum salary := by
  have hti : td.priceIndex ≠ 0 := by
    rw [hidx]
    exact hfi
  rw [computeEquivalentSalary_formula_aux fd td rs currency currency salary r r
    hfi hti hr hr0 hr hr0]
  show parseSalaryNum salary / r * (td.priceIndex / fd.priceIndex) * r = parseSalaryNum salary
  rw [hidx, div_self hfi, mul_one, div_mul_cancel₀ _ hr0]

/-- Witness for C3 at a concrete input: 50000 from AAA at index 98 to AAA
at index 98 with rate 2 comes back as 50000. -/
theorem equivalentSalary_roundtrip_witness :
    (computeEquivalentSalary (some (sampleCountry "AA" "AAA" 98))
        (some (sampleCountry "AA" "AAA" 98)) (some [("AAA", 2)]) "AAA" "AAA"
        "50000").equivalentSalary = parseSalaryNum "50000" :=
  equivalentSalary_roundtrip (sampleCountry "AA" "AAA" 98) (sampleCountry "AA" "AAA" 98)
    [("AAA", 2)] "AAA" "50000" 2 rfl (by decide) (by decide) (by decide)

/-- C4: for every comparison category the comparator yields
`(toIndex / fromIndex - 1) * 100` when both indices are present and the
source index is nonzero, and a neutral zero differential when either
index is missing or the source index is zero; the aggregate `total`
category is driven by the overall price index (always present); and the
comparison list is the per-category map of this comparator. -/
theorem priceLevelEntry_spec (fd td : CountryData) (catId : String)
    (cats : List String) :
    (catId = "total" → fd.priceIndex ≠ 0 →
      priceLevelEntry fd td catId = ⟨catId, (td.priceIndex / fd.priceIndex - 1) * 100⟩) ∧
    (catId ≠ "total" → ∀ fi ti, lookupA fd.categoryPrices catId = some fi →
      lookupA td.categoryPrices catId = some ti → fi ≠ 0 →
      priceLevelEntry fd td catId = ⟨catId, (ti / fi - 1) * 100⟩) ∧
    (catId ≠ "total" →
      lookupA fd.categoryPrices catId = none ∨ lookupA td.categoryPrices catId = none →
      priceLevelEntry fd td catId = ⟨catId, 0⟩) ∧
    (catId ≠ "total" → lookupA fd.categoryPrices catId = some 0 →
      priceLevelEntry fd td catId = ⟨catId, 0⟩) ∧
    (catId = "total" → fd.priceIndex = 0 → priceLevelEntry fd td catId = ⟨catId, 0⟩) ∧
    priceLevelData cats (some fd) (some td) = cats.map (priceLevelEntry fd td) := by
  refine ⟨?_, ?_, ?_, ?_, ?_, rfl⟩
  · rintro rfl hfi
    simp [priceLevelEntry, hfi]
  · intro h fi ti hfi hti h0
    simp [priceLevelEntry, h, hfi, hti, h0]
  · rintro h (hmiss | hmiss) <;>
      rcases hother : lookupA fd.categoryPrices catId with _ | fi <;>
      simp [priceLevelEntry, h, hmiss, hother]
  · intro h hzero
    rcases hti : lookupA td.categoryPrices catId with _ | ti <;>
      simp [priceLevelEntry, h, hzero, hti]
  · rintro rfl hzero
    simp [priceLevelEntry, hzero]

/-- Witness for C4 at concrete inputs: the total category at indices 98
and 105, a present category, a missing category, a zero-source category,
and a zero overall index. -/
theorem priceLevelEntry_spec_witness :
    priceLevelEntry (sampleCountry "AA" "AAA" 98) (sampleCountry "BB" "BBB" 105) "total" =
      ⟨"total", ((sampleCountry "BB" "BBB" 105).priceIndex /
        (sampleCountry "AA" "AAA" 98).priceIndex - 1) * 100⟩ ∧
    priceLevelEntry (sampleCountry "AA" "AAA" 98) (sampleCountry "BB" "BBB" 105) "food" =
      ⟨"food", ((95 : ℚ) / 95 - 1) * 100⟩ ∧
    priceLevelEntry (sampleCountry "AA" "AAA" 98) (sampleCountry "BB" "BBB" 105) "housing" =
      ⟨"housing", 0⟩ ∧
    priceLevelEntry ⟨"CC", "CC", "EUR", 1000, 50, [("food", 0)], sampleQoL,
        ⟨"Numbeo", none, "2024"⟩⟩ (sampleCountry "BB" "BBB" 105) "food" = ⟨"food", 0⟩ ∧
    priceLevelEntry (sampleCountry "AA" "AAA" 0) (sampleCountry "BB" "BBB" 105) "total" =
      ⟨"total", 0⟩ :=
  ⟨(priceLevelEntry_spec (sampleCountry "AA" "AAA" 98) (sampleCountry "BB" "BBB" 105)
      "total" []).1 rfl (by decide),
   (priceLevelEntry_spec (sampleCountry "AA" "AAA" 98) (sampleCountry "BB" "BBB" 105)
      "food" []).2.1 (by decide) 95 95 (by decide) (by decide) (by decide),
   (priceLevelEntry_spec (sampleCountry "AA" "AAA" 98) (sampleCountry "BB" "BBB" 105)
      "housing" []).2.2.1 (by decide) (Or.inl (by decide)),
   (priceLevelEntry_spec ⟨"CC", "CC", "EUR", 1000, 50, [("food", 0)], sampleQoL,
      ⟨"Numbeo", none, "2024"⟩⟩ (sampleCountry "BB" "BBB" 105) "food" []).2.2.2.1
      (by decide) (by decide),
   (priceLevelEntry_spec (sampleCountry "AA" "AAA" 0) (sampleCountry "BB" "BBB" 105)
      "total" []).2.2.2.2.1 rfl rfl⟩

/-- C5: on every run of the rate fetcher, a persisted snapshot dated
today is served unmodified with no network call; otherwise (absent
snapshot or one dated another day) fresh rates are fetched, a 1.0 rate
is injected for the reference currency EUR (overriding any fetched EUR
rate, keeping every other rate), and the snapshot is persisted keyed by
the current date and used as the rates in force. -/
theorem fetchRates_daily_cache (today : String) (stored : Option RatesSnapshot)
    (net : Option (List (String × ℚ))) :
    (∀ c, stored = some c → c.date = today →
      fetchRates today stored net =
        ⟨some c, some c.rates, some c.date, false, false, false⟩) ∧
    ((∀ c, stored = some c → c.date ≠ today) → ∀ data, net = some data →
      fetchRates today stored net =
        ⟨some ⟨today, injectEUR data⟩, some (injectEUR data), some today,
         false, false, true⟩ ∧
      lookupA (injectEUR data) "EUR" = some 1 ∧
      ∀ cur, cur ≠ "EUR" → lookupA (injectEUR data) cur = lookupA data cur) := by
  constructor
  · rintro c rfl hdate
    simp [fetchRates, hdate]
  · rintro hstale data rfl
    refine ⟨?_, lookupA_updAssoc_self data "EUR" 1,
      fun cur hcur => lookupA_updAssoc_ne data "EUR" cur 1 hcur⟩
    obtain _ | c := stored
    · rfl
    · simp [fetchRates, hstale c rfl]

/-- Witness for C5 at concrete inputs: a snapshot dated today is reused
without a network call; with no snapshot, fetched rates (including a
bogus fetched EUR entry) are persisted for today with EUR forced to 1
and the USD rate kept. -/
theorem fetchRates_daily_cache_witness :
    fetchRates "2024-05-02" (some ⟨"2024-05-02", [("USD", 2)]⟩) none =
      ⟨some ⟨"2024-05-02", [("USD", 2)]⟩, some [("USD", 2)], some "2024-05-02",
       false, false, false⟩ ∧
    fetchRates "2024-05-02" none (some [("USD", 2), ("EUR", 5)]) =
      ⟨some ⟨"2024-05-02", injectEUR [("USD", 2), ("EUR", 5)]⟩,
       some (injectEUR [("USD", 2), ("EUR", 5)]), some "2024-05-02",
       false, false, true⟩ ∧
    lookupA (injectEUR [("USD", 2), ("EUR", 5)]) "EUR" = some 1 ∧
    lookupA (injectEUR [("USD", 2), ("EUR", 5)]) "USD" =
      lookupA [("USD", 2), ("EUR", 5)] "USD" :=
  ⟨(fetchRates_daily_cache "2024-05-02" (some ⟨"2024-05-02", [("USD", 2)]⟩) none).1
      ⟨"2024-05-02", [("USD", 2)]⟩ rfl rfl,
   ((fetchRates_daily_cache "2024-05-02" none (some [("USD", 2), ("EUR", 5)])).2
      (by intro c hc; cases hc) [("USD", 2), ("EUR", 5)] rfl).1,
   ((fetchRates_daily_cache "2024-05-02" none (some [("USD", 2), ("EUR", 5)])).2
      (by intro c hc; cases hc) [("USD", 2), ("EUR", 5)] rfl).2.1,
   ((fetchRates_daily_cache "2024-05-02" none (some [("USD", 2), ("EUR", 5)])).2
      (by intro c hc; cases hc) [("USD", 2), ("EUR", 5)] rfl).2.2 "USD" (by decide)⟩

/-- C6 counterexample: with a persisted snapshot dated yesterday and a
failing fetch, the degraded-service flag is set but the stale snapshot
is NOT served as the rates in use: the rates state stays empty, contrary
to the claim that the last known persisted snapshot (including a stale
one) continues to be served. -/
theorem fetchRates_stale_not_served :
    (fetchRates "2024-05-02" (some ⟨"2024-05-01", [("USD", 2)]⟩) none).ratesError = true ∧
    (fetchRates "2024-05-02" (some ⟨"2024-05-01", [("USD", 2)]⟩) none).rates = none ∧
    (fetchRates "2024-05-02" (some ⟨"2024-05-01", [("USD", 2)]⟩) none).rates ≠
      some [("USD", 2)] := by
  refine ⟨rfl, rfl, ?_⟩
  decide

/-- C6 amended: on fetch failure the degraded-service flag is set and
the persisted snapshot (if any, including a stale one) is retained in
storage but not loaded: the rates in use stay empty whenever no same-day
snapshot exists, so every exchange-derived figure is treated as
unavailable (the zero sentinel), even when a stale snapshot is
persisted. -/
theorem fetchRates_failure_degraded (today : String) (stored : Option RatesSnapshot)
    (hstale : ∀ c, stored = some c → c.date ≠ today) :
    fetchRates today stored none = ⟨stored, none, none, false, true, true⟩ ∧
    ∀ fromData toData fromCurrency toCurrency salary,
      computeEquivalentSalary fromData toData (fetchRates today stored none).rates
        fromCurrency toCurrency salary = zeroEquiv := by
  have heq : fetchRates today stored none = ⟨stored, none, none, false, true, true⟩ := by
    obtain _ | c := stored
    · rfl
    · simp [fetchRates, hstale c rfl]
  refine ⟨heq, ?_⟩
  rw [heq]
  rintro (_ | fd) (_ | td) fromCurrency toCurrency salary <;> rfl

/-- Witness for C6 amended at a concrete input: stale snapshot dated
yesterday, failing fetch. -/
theorem fetchRates_failure_degraded_witness :
    fetchRates "2024-05-02" (some ⟨"2024-05-01", [("USD", 2)]⟩) none =
      ⟨some ⟨"2024-05-01", [("USD", 2)]⟩, none, none, false, true, true⟩ ∧
    computeEquivalentSalary (some (sampleCountry "AA" "USD" 90))
      (some (sampleCountry "BB" "EUR" 105))
      (fetchRates "2024-05-02" (some ⟨"2024-05-01", [("USD", 2)]⟩) none).rates
      "USD" "EUR" "50000" = zeroEquiv :=
  ⟨(fetchRates_failure_degraded "2024-05-02" (some ⟨"2024-05-01", [("USD", 2)]⟩)
      (by intro c hc; injection hc with h; subst h; decide)).1,
   (fetchRates_failure_degraded "2024-05-02" (some ⟨"2024-05-01", [("USD", 2)]⟩)
      (by intro c hc; injection hc with h; subst h; decide)).2
      (some (sampleCountry "AA" "USD" 90)) (some (sampleCountry "BB" "EUR" 105))
      "USD" "EUR" "50000"⟩

/-- C9: a generation request for a code already cached or already in the
in-flight set is a no-op (identical state, no generation started, hence
no cache write); once a request has claimed the in-flight marker, a
second request for the same code before completion is a no-op; and after
a completed run the code is cached, so a later request is again a no-op.
Two requests for the same code therefore perform exactly one generation
and one cache write. -/
theorem fetchCountryData_reentrancy (countries : List SelectableCountry)
    (code : String) (s : FetchState) :
    ((lookupA s.cache code).isSome ∨ code ∈ s.fetching →
      fetchBegin countries code s = (s, false)) ∧
    (∀ s₁, fetchBegin countries code s = (s₁, true) →
      fetchBegin countries code s₁ = (s₁, false)) ∧
    (∀ sine cats monthKey, (countries.find? (fun c => c.code = code)).isSome →
      fetchBegin countries code (fetchComplete countries sine cats monthKey code s) =
        (fetchComplete countries sine cats monthKey code s, false)) := by
  refine ⟨?_, ?_, ?_⟩
  · intro hguard
    unfold fetchBegin
    rw [if_pos hguard]
  · intro s₁ h
    by_cases hguard : (lookupA s.cache code).isSome ∨ code ∈ s.fetching
    · unfold fetchBegin at h
      rw [if_pos hguard] at h
      simp at h
    · unfold fetchBegin at h
      rw [if_neg hguard] at h
      rcases hf : countries.find? (fun c => c.code = code) with _ | c
      · rw [hf] at h
        simp at h
      · rw [hf] at h
        injection h with h1 _
        subst h1
        unfold fetchBegin
        rw [if_pos (Or.inr (List.mem_cons_self code s.fetching))]
  · intro sine cats monthKey hfind
    rcases hf : countries.find? (fun c => c.code = code) with _ | c
    · rw [hf] at hfind
      simp at hfind
    · unfold fetchComplete
      rw [hf]
      unfold fetchBegin
      rw [if_pos (Or.inl (by rw [lookupA_updAssoc_self]; rfl))]

/-- Witness for C9 at concrete inputs: a cached IT entry makes the
request a no-op; a request started from the empty state claims the
in-flight marker and a second request before completion is a no-op; a
request after completion is a no-op. -/
theorem fetchCountryData_reentrancy_witness :
    fetchBegin [⟨"IT", "Italy", "EUR"⟩] "IT"
        ⟨[("IT", sampleCountry "IT" "EUR" 98)], [], [], [], []⟩ =
      (⟨[("IT", sampleCountry "IT" "EUR" 98)], [], [], [], []⟩, false) ∧
    fetchBegin [⟨"IT", "Italy", "EUR"⟩] "IT"
        ⟨[], ["IT"], [("IT", true)], [("IT", none)], []⟩ =
      (⟨[], ["IT"], [("IT", true)], [("IT", none)], []⟩, false) ∧
    fetchBegin [⟨"IT", "Italy", "EUR"⟩] "IT"
        (fetchComplete [⟨"IT", "Italy", "EUR"⟩] (fun _ => 0) ["total"] "2024-4" "IT"
          ⟨[], ["IT"], [("IT", true)], [("IT", none)], []⟩) =
      (fetchComplete [⟨"IT", "Italy", "EUR"⟩] (fun _ => 0) ["total"] "2024-4" "IT"
        ⟨[], ["IT"], [("IT", true)], [("IT", none)], []⟩, false) :=
  ⟨(fetchCountryData_reentrancy [⟨"IT", "Italy", "EUR"⟩] "IT"
      ⟨[("IT", sampleCountry "IT" "EUR" 98)], [], [], [], []⟩).1 (Or.inl (by decide)),
   (fetchCountryData_reentrancy [⟨"IT", "Italy", "EUR"⟩] "IT"
      ⟨[], [], [], [], []⟩).2.1 ⟨[], ["IT"], [("IT", true)], [("IT", none)], []⟩
      (by decide),
   (fetchCountryData_reentrancy [⟨"IT", "Italy", "EUR"⟩] "IT"
      ⟨[], ["IT"], [("IT", true)], [("IT", none)], []⟩).2.2 (fun _ => 0) ["total"]
      "2024-4" (by decide)⟩

/-- C10: the generated country data does not depend on the calendar
month: a complete fetch run with the same code from the same state in
any two months leaves identical cache, in-flight, loading and error
state, and persists the same data (only the stored monthKey label
differs), so the monthly cache invalidation regenerates exactly the
values it discarded. -/
theorem generatedData_month_independent (countries : List SelectableCountry)
    (sine : Int → ℚ) (cats : List String) (m₁ m₂ code : String) (s : FetchState) :
    (fetchCountryDataRun countries sine cats m₁ code s).cache =
      (fetchCountryDataRun countries sine cats m₂ code s).cache ∧
    (fetchCountryDataRun countries sine cats m₁ code s).fetching =
      (fetchCountryDataRun countries sine cats m₂ code s).fetching ∧
    (fetchCountryDataRun countries sine cats m₁ code s).loading =
      (fetchCountryDataRun countries sine cats m₂ code s).loading ∧
    (fetchCountryDataRun countries sine cats m₁ code s).err =
      (fetchCountryDataRun countries sine cats m₂ code s).err ∧
    (lookupA (fetchCountryDataRun countries sine cats m₁ code s).storage code).map
        (fun e => e.data) =
      (lookupA (fetchCountryDataRun countries sine cats m₂ code s).storage code).map
        (fun e => e.data) := by
  rcases hb : fetchBegin countries code s with ⟨s₁, started⟩
  unfold fetchCountryDataRun
  rw [hb]
  cases started
  · exact ⟨rfl, rfl, rfl, rfl, rfl⟩
  · simp only [if_true]
    unfold fetchComplete
    rcases hf : countries.find? (fun c => c.code = code) with _ | c <;> rw [hf]
    · exact ⟨rfl, rfl, rfl, rfl, rfl⟩
    · refine ⟨rfl, rfl, rfl, rfl, ?_⟩
      rw [lookupA_updAssoc_self, lookupA_updAssoc_self]
      rfl
